import Mathlib

/-!
Verification development for the Care-Cast per-patient monitoring scheduler.

The definitions below are a shallow embedding of the JavaScript source:
  - queue.js (scheduleHealthCheckup, scheduleDailyCheckup,
    scheduleWeatherAlertCheckin, cancelHealthCheckups, updateMonitoringFrequency)
  - the webhook server (detectPollResponse, handlePollResponse)
  - the BullMQ workers (processRecurringHealthMonitor, processWeatherAlertCheckin,
    processDailyRoutineCheckup, processAISymptomCheck)
  - the monitoring service (MonitoringScheduler.scheduleAISymptomMonitoring,
    cancelAIMonitoring, AI_MONITORING_PATTERNS)
Theorems about these definitions settle the specification claims.
-/

namespace CareCast

/-- The five poll response categories recognised by the response interpreter
(README detectPollResponse / handlePollResponse validResponses). -/
inductive PollResponse where
  | much_better
  | slightly_better
  | same_symptoms
  | worse_condition
  | emergency_help
  deriving DecidableEq, Repr

/-- ASCII lowercasing of a single character, the effect of JavaScript
String.prototype.toLowerCase on the ASCII inputs this system handles. -/
def asciiLower (c : Char) : Char :=
  if 'A' ≤ c ∧ c ≤ 'Z' then Char.ofNat (c.toNat + 32) else c

/-- Whitespace characters removed by String.prototype.trim. -/
def isSpaceChar (c : Char) : Bool :=
  c = ' ' || c = '\t' || c = '\n' || c = '\r'

/-- Drop leading and trailing whitespace (String.prototype.trim). -/
def trimChars (l : List Char) : List Char :=
  ((l.dropWhile isSpaceChar).reverse.dropWhile isSpaceChar).reverse

/-- messageText.toLowerCase().trim() from detectPollResponse. -/
def normalizeText (s : String) : String :=
  String.mk (trimChars (s.data.map asciiLower))

/-- Embedding of detectPollResponse (webhook server).  Every regular
expression in the source is anchored (^...$) over a finite alternation of
literal words, applied to the lowercased trimmed text, so each test is an
exact string comparison; the branches appear in source order: bare digits
1-5, exact button IDs, then the curated short phrasings per category. -/
def detectPollResponse (messageText : String) : Option PollResponse :=
  let text := normalizeText messageText
  if text = "1" then some .much_better
  else if text = "2" then some .slightly_better
  else if text = "3" then some .same_symptoms
  else if text = "4" then some .worse_condition
  else if text = "5" then some .emergency_help
  else if text = "much_better" then some .much_better
  else if text = "slightly_better" then some .slightly_better
  else if text = "same_symptoms" then some .same_symptoms
  else if text = "worse_condition" then some .worse_condition
  else if text = "emergency_help" then some .emergency_help
  else if text = "better" ∨ text = "much better" ∨ text = "feeling better"
      ∨ text = "feeling much better" then some .much_better
  else if text = "slightly better" ∨ text = "a little better"
      ∨ text = "a bit better" then some .slightly_better
  else if text = "same" ∨ text = "the same" ∨ text = "no change"
      ∨ text = "unchanged" then some .same_symptoms
  else if text = "worse" ∨ text = "getting worse" ∨ text = "feeling worse"
      then some .worse_condition
  else if text = "911" ∨ text = "call 911" ∨ text = "emergency"
      ∨ text = "need help now" then some .emergency_help
  else none

/-- The complete list of normalised texts accepted by detectPollResponse. -/
def pollPhrases : List String :=
  ["1", "2", "3", "4", "5",
   "much_better", "slightly_better", "same_symptoms", "worse_condition",
   "emergency_help",
   "better", "much better", "feeling better", "feeling much better",
   "slightly better", "a little better", "a bit better",
   "same", "the same", "no change", "unchanged",
   "worse", "getting worse", "feeling worse",
   "911", "call 911", "emergency", "need help now"]

/-- The monitoringIntervals table of scheduleHealthCheckup (queue.js):
critical 2, high 5, medium 15, low 60, emergency 1; any other key is
absent from the object literal. -/
def monitoringIntervals (riskLevel : String) : Option Nat :=
  if riskLevel = "critical" then some 2
  else if riskLevel = "high" then some 5
  else if riskLevel = "medium" then some 15
  else if riskLevel = "low" then some 60
  else if riskLevel = "emergency" then some 1
  else none

/-- monitoringIntervals[riskLevel] || monitoringIntervals.medium
(queue.js scheduleHealthCheckup): an unknown level falls back to the
medium interval of 15 minutes. -/
def scheduleInterval (riskLevel : String) : Nat :=
  match monitoringIntervals riskLevel with
  | some n => n
  | none => 15

/-- The weatherIntervals table of scheduleWeatherAlertCheckin (queue.js):
emergency 15, high 30, routine 60; unknown urgency falls back to 60. -/
def weatherIntervals (urgency : String) : Option Nat :=
  if urgency = "emergency" then some 15
  else if urgency = "high" then some 30
  else if urgency = "routine" then some 60
  else none

/-- weatherIntervals[waveStatus.urgency] || 60 (queue.js). -/
def weatherInterval (urgency : String) : Nat :=
  (weatherIntervals urgency).getD 60

/-! ## Job-store model

The healthCronQueue is a BullMQ queue; a pending delayed job is identified
by its jobId string.  The ids actually used by the scheduler are listed
below; the scheduling identity of a job is the (patientId, track) pair the
spec derives from that id. -/

/-- A monitoring track: the daily, weather-alert and AI-symptom purposes
have dedicated id shapes; all other monitoring goes through the tag-keyed
recurring-monitor ids (tag "symptom" is the symptom track). -/
inductive Track where
  | daily
  | weatherAlert
  | aiSymptom
  | tagged (tag : String)
  deriving DecidableEq, Repr

/-- The BullMQ job ids created by queue.js and the monitoring service:
recurring-monitor-(phone)-(tag), daily-checkup-(phone),
weather-alert-(phone), ai-symptom-(phone)-(timestamp)-(idx), and the
legacy health-checkup-(phone)-(tag)-(interval)min ids that
cancelHealthCheckups still sweeps. -/
inductive JobId where
  | recurringMonitor (phone tag : String)
  | dailyCheckup (phone : String)
  | weatherAlert (phone : String)
  | aiSymptom (phone : String) (startMs idx : Nat)
  | legacyCheckup (phone tag : String) (intervalMin : Nat)
  deriving DecidableEq, Repr

/-- The (patientId, track) identity of a job. -/
def identOf : JobId → String × Track
  | .recurringMonitor p tag => (p, .tagged tag)
  | .dailyCheckup p => (p, .daily)
  | .weatherAlert p => (p, .weatherAlert)
  | .aiSymptom p _ _ => (p, .aiSymptom)
  | .legacyCheckup p tag _ => (p, .tagged tag)

/-- Jobs whose id is a function of their identity alone (one id per
identity).  The AI-symptom ids also embed a timestamp and an index, and
the legacy ids embed an interval, so several of those can share one
identity. -/
def keyedJob : JobId → Bool
  | .recurringMonitor _ _ => true
  | .dailyCheckup _ => true
  | .weatherAlert _ => true
  | _ => false

/-- BullMQ Queue.add with an explicit jobId: a duplicate id is ignored. -/
def addJob (id : JobId) (s : List JobId) : List JobId :=
  if id ∈ s then s else id :: s

/-- Job.remove via getJob(jobId): delete the pending job with that id. -/
def removeJob (id : JobId) (s : List JobId) : List JobId :=
  s.erase id

/-- The legacy interval sweep in cancelHealthCheckups. -/
def legacyIntervals : List Nat := [1, 2, 5, 10, 15, 60]

/-- The backwards-compatibility loop at the end of cancelHealthCheckups. -/
def removeLegacy (p tag : String) (s : List JobId) : List JobId :=
  legacyIntervals.foldl (fun s i => removeJob (.legacyCheckup p tag i) s) s

/-- One tag branch of cancelHealthCheckups: remove the pending job whose
id is determined by (phone, tag), then sweep the legacy ids. -/
def cancelTag (p tag : String) (s : List JobId) : List JobId :=
  if tag = "daily" then removeLegacy p tag (removeJob (.dailyCheckup p) s)
  else if tag = "weather-alert" then
    removeLegacy p tag (removeJob (.weatherAlert p) s)
  else removeLegacy p tag (removeJob (.recurringMonitor p tag) s)

/-- cancelHealthCheckups (queue.js): tag "all" recurses over the three
named tags; otherwise cancel the one tag. -/
def cancelHealthCheckupsStore (p tag : String) (s : List JobId) : List JobId :=
  if tag = "all" then
    cancelTag p "weather-alert" (cancelTag p "daily" (cancelTag p "symptom" s))
  else cancelTag p tag s

/-- scheduleHealthCheckup (queue.js): cancel the tag, then add the single
recurring-monitor-(phone)-(tag) job. -/
def scheduleHealthCheckupStore (p tag : String) (s : List JobId) : List JobId :=
  addJob (.recurringMonitor p tag) (cancelHealthCheckupsStore p tag s)

/-- scheduleDailyCheckup (queue.js): cancel tag "daily", then add the
daily-checkup-(phone) job (with native 24h repeat). -/
def scheduleDailyCheckupStore (p : String) (s : List JobId) : List JobId :=
  addJob (.dailyCheckup p) (cancelHealthCheckupsStore p "daily" s)

/-- scheduleWeatherAlertCheckin (queue.js): cancel tag "weather-alert",
then add the weather-alert-(phone) job only for emergency or high urgency. -/
def scheduleWeatherAlertStore (p urgency : String) (s : List JobId) : List JobId :=
  let s1 := cancelHealthCheckupsStore p "weather-alert" s
  if urgency = "emergency" ∨ urgency = "high" then addJob (.weatherAlert p) s1
  else s1

/-- updateMonitoringFrequency (queue.js): cancel the tag, then restart via
scheduleHealthCheckup, but only when the tag is "symptom". -/
def updateMonitoringFrequencyStore (p tag : String) (s : List JobId) : List JobId :=
  let s1 := cancelHealthCheckupsStore p tag s
  if tag = "symptom" then scheduleHealthCheckupStore p tag s1 else s1

/-- A recurring-health-monitor fire: BullMQ takes the due job out of the
pending set, then processRecurringHealthMonitor calls scheduleHealthCheckup
to enqueue the successor. -/
def fireRecurringStore (p tag : String) (s : List JobId) : List JobId :=
  scheduleHealthCheckupStore p tag (removeJob (.recurringMonitor p tag) s)

/-- A weather-alert-checkin fire: the due job leaves the pending set, then
processWeatherAlertCheckin re-adds weather-alert-(phone) while the alert
urgency stays emergency or high. -/
def fireWeatherStore (p urgency : String) (s : List JobId) : List JobId :=
  let s1 := removeJob (.weatherAlert p) s
  if urgency = "emergency" ∨ urgency = "high" then addJob (.weatherAlert p) s1
  else s1

/-- MonitoringScheduler.cancelAIMonitoring: remove every pending job of
this phone whose name is the AI-symptom monitoring type. -/
def cancelAIMonitoringStore (p : String) (s : List JobId) : List JobId :=
  s.filter (fun id => !(decide (identOf id = (p, Track.aiSymptom))))

/-- MonitoringScheduler.scheduleAISymptomMonitoring: cancel existing AI
monitoring, then add one job per interval of the suggested pattern
(ids baseJobId-1 .. baseJobId-n, n = intervals.length). -/
def scheduleAISymptomMonitoringStore (p : String) (startMs numChecks : Nat)
    (s : List JobId) : List JobId :=
  (List.range numChecks).foldl
    (fun s i => addJob (.aiSymptom p startMs (i + 1)) s)
    (cancelAIMonitoringStore p s)

/-- The serialized operations of the monitoring chain controller. -/
inductive Op where
  | schedHealth (p tag : String)
  | schedDaily (p : String)
  | schedWeather (p urgency : String)
  | cancelOp (p tag : String)
  | updateFreq (p tag : String)
  | fireRecurring (p tag : String)
  | fireWeather (p urgency : String)
  | aiStart (p : String) (startMs numChecks : Nat)
  deriving DecidableEq, Repr

/-- Effect of one operation on the pending-job set. -/
def applyOp (s : List JobId) : Op → List JobId
  | .schedHealth p tag => scheduleHealthCheckupStore p tag s
  | .schedDaily p => scheduleDailyCheckupStore p s
  | .schedWeather p urgency => scheduleWeatherAlertStore p urgency s
  | .cancelOp p tag => cancelHealthCheckupsStore p tag s
  | .updateFreq p tag => updateMonitoringFrequencyStore p tag s
  | .fireRecurring p tag => fireRecurringStore p tag s
  | .fireWeather p urgency => fireWeatherStore p urgency s
  | .aiStart p startMs numChecks =>
      scheduleAISymptomMonitoringStore p startMs numChecks s

/-- Run a serialized sequence of operations. -/
def applyOps (s : List JobId) (ops : List Op) : List JobId :=
  ops.foldl applyOp s

/-- Number of pending jobs at a given identity. -/
def pendingAt (s : List JobId) (ident : String × Track) : Nat :=
  (s.filter (fun id => decide (identOf id = ident))).length

/-- Operations implemented in queue.js (everything except the AI-symptom
batch scheduler of the monitoring service). -/
def isQueueOp : Op → Bool
  | .aiStart _ _ _ => false
  | _ => true

/-! ## Store invariant: at most one pending job per identity -/

/-- A store in which every pending job has an identity-determined id and
no id occurs twice. -/
def GoodStore (s : List JobId) : Prop :=
  s.Nodup ∧ ∀ id ∈ s, keyedJob id = true

lemma identOf_inj_keyed {a b : JobId} (ha : keyedJob a = true)
    (hb : keyedJob b = true) (h : identOf a = identOf b) : a = b := by
  cases a <;> cases b <;> simp_all [keyedJob, identOf]

lemma goodStore_nil : GoodStore [] :=
  ⟨List.nodup_nil, by simp⟩

lemma goodStore_addJob {s : List JobId} (id : JobId) (hid : keyedJob id = true)
    (h : GoodStore s) : GoodStore (addJob id s) := by
  unfold addJob
  by_cases hmem : id ∈ s
  · rw [if_pos hmem]; exact h
  · rw [if_neg hmem]
    refine ⟨List.nodup_cons.mpr ⟨hmem, h.1⟩, ?_⟩
    intro j hj
    rcases List.mem_cons.mp hj with rfl | hj2
    · exact hid
    · exact h.2 j hj2

lemma goodStore_removeJob {s : List JobId} (id : JobId) (h : GoodStore s) :
    GoodStore (removeJob id s) :=
  ⟨h.1.erase id, fun j hj => h.2 j (List.mem_of_mem_erase hj)⟩

lemma goodStore_foldl_remove {α : Type} (f : α → JobId) :
    ∀ (l : List α) (s : List JobId), GoodStore s →
      GoodStore (l.foldl (fun s a => removeJob (f a) s) s)
  | [], _, h => h
  | a :: l, s, h =>
      goodStore_foldl_remove f l (removeJob (f a) s) (goodStore_removeJob (f a) h)

lemma goodStore_removeLegacy {s : List JobId} (p tag : String)
    (h : GoodStore s) : GoodStore (removeLegacy p tag s) :=
  goodStore_foldl_remove (fun i => JobId.legacyCheckup p tag i) legacyIntervals s h

lemma goodStore_cancelTag {s : List JobId} (p tag : String) (h : GoodStore s) :
    GoodStore (cancelTag p tag s) := by
  unfold cancelTag
  split
  · exact goodStore_removeLegacy p tag (goodStore_removeJob _ h)
  · split
    · exact goodStore_removeLegacy p tag (goodStore_removeJob _ h)
    · exact goodStore_removeLegacy p tag (goodStore_removeJob _ h)

lemma goodStore_cancel {s : List JobId} (p tag : String) (h : GoodStore s) :
    GoodStore (cancelHealthCheckupsStore p tag s) := by
  unfold cancelHealthCheckupsStore
  split
  · exact goodStore_cancelTag p _ (goodStore_cancelTag p _ (goodStore_cancelTag p _ h))
  · exact goodStore_cancelTag p tag h

lemma goodStore_schedHealth {s : List JobId} (p tag : String)
    (h : GoodStore s) : GoodStore (scheduleHealthCheckupStore p tag s) :=
  goodStore_addJob _ rfl (goodStore_cancel p tag h)

lemma goodStore_schedDaily {s : List JobId} (p : String) (h : GoodStore s) :
    GoodStore (scheduleDailyCheckupStore p s) :=
  goodStore_addJob _ rfl (goodStore_cancel p "daily" h)

lemma goodStore_schedWeather {s : List JobId} (p urgency : String)
    (h : GoodStore s) : GoodStore (scheduleWeatherAlertStore p urgency s) := by
  unfold scheduleWeatherAlertStore
  split
  · exact goodStore_addJob _ rfl (goodStore_cancel p _ h)
  · exact goodStore_cancel p _ h

lemma goodStore_updateFreq {s : List JobId} (p tag : String)
    (h : GoodStore s) : GoodStore (updateMonitoringFrequencyStore p tag s) := by
  unfold updateMonitoringFrequencyStore
  split
  · exact goodStore_schedHealth p tag (goodStore_cancel p tag h)
  · exact goodStore_cancel p tag h

lemma goodStore_fireRecurring {s : List JobId} (p tag : String)
    (h : GoodStore s) : GoodStore (fireRecurringStore p tag s) :=
  goodStore_schedHealth p tag (goodStore_removeJob _ h)

lemma goodStore_fireWeather {s : List JobId} (p urgency : String)
    (h : GoodStore s) : GoodStore (fireWeatherStore p urgency s) := by
  unfold fireWeatherStore
  split
  · exact goodStore_addJob _ rfl (goodStore_removeJob _ h)
  · exact goodStore_removeJob _ h

lemma goodStore_applyOp {s : List JobId} (op : Op) (hop : isQueueOp op = true)
    (h : GoodStore s) : GoodStore (applyOp s op) := by
  cases op with
  | schedHealth p tag => exact goodStore_schedHealth p tag h
  | schedDaily p => exact goodStore_schedDaily p h
  | schedWeather p urgency => exact goodStore_schedWeather p urgency h
  | cancelOp p tag => exact goodStore_cancel p tag h
  | updateFreq p tag => exact goodStore_updateFreq p tag h
  | fireRecurring p tag => exact goodStore_fireRecurring p tag h
  | fireWeather p urgency => exact goodStore_fireWeather p urgency h
  | aiStart p a b => simp [isQueueOp] at hop

lemma goodStore_applyOps : ∀ (ops : List Op) (s : List JobId),
    (∀ op ∈ ops, isQueueOp op = true) → GoodStore s →
    GoodStore (applyOps s ops)
  | [], _, _, h => h
  | op :: ops, s, hq, h =>
      goodStore_applyOps ops (applyOp s op)
        (fun o ho => hq o (List.mem_cons_of_mem _ ho))
        (goodStore_applyOp op (hq op (List.mem_cons_self _ _)) h)

lemma length_le_one_of_nodup_allEq {α : Type} {l : List α} (hn : l.Nodup)
    (h : ∀ a ∈ l, ∀ b ∈ l, a = b) : l.length ≤ 1 := by
  match l with
  | [] => simp
  | [a] => simp
  | a :: b :: t =>
    exfalso
    have hab : a = b := h a (by simp) b (by simp)
    have hcons := List.nodup_cons.mp hn
    exact hcons.1 (by rw [hab]; exact List.mem_cons_self b t)

lemma pendingAt_le_one_of_good {s : List JobId} (h : GoodStore s)
    (ident : String × Track) : pendingAt s ident ≤ 1 := by
  unfold pendingAt
  apply length_le_one_of_nodup_allEq (h.1.filter _)
  intro a ha b hb
  have ha2 := List.mem_filter.mp ha
  have hb2 := List.mem_filter.mp hb
  have ha3 : identOf a = ident := of_decide_eq_true ha2.2
  have hb3 : identOf b = ident := of_decide_eq_true hb2.2
  exact identOf_inj_keyed (h.2 a ha2.1) (h.2 b hb2.1) (ha3.trans hb3.symm)

/-- C1 (amended): for the operations implemented in queue.js — start,
cancel, escalate/de-escalate and the fire handlers, all of which enqueue
under an identity-determined job id after first cancelling that identity —
any serialized sequence of operations from an empty store leaves at most
one non-cancelled pending check-in job per (patientId, track) identity.
The AI-symptom batch scheduler is excluded: it pre-enqueues one job per
configured interval under the same identity (see the counterexample). -/
theorem queueOps_pendingAt_le_one (ops : List Op)
    (h : ∀ op ∈ ops, isQueueOp op = true) (ident : String × Track) :
    pendingAt (applyOps [] ops) ident ≤ 1 :=
  pendingAt_le_one_of_good (goodStore_applyOps ops [] h goodStore_nil) ident

/-- Witness for C1 at a concrete serialized operation sequence. -/
theorem queueOps_pendingAt_le_one_witness :
    (∀ op ∈ ([Op.schedHealth "p1" "symptom", Op.fireRecurring "p1" "symptom",
        Op.updateFreq "p1" "symptom", Op.schedDaily "p1",
        Op.schedWeather "p1" "high", Op.cancelOp "p1" "all"] : List Op),
      isQueueOp op = true) ∧
    pendingAt (applyOps [] [Op.schedHealth "p1" "symptom",
        Op.fireRecurring "p1" "symptom", Op.updateFreq "p1" "symptom",
        Op.schedDaily "p1", Op.schedWeather "p1" "high",
        Op.cancelOp "p1" "all"]) ("p1", Track.tagged "symptom") ≤ 1 :=
  ⟨by decide, queueOps_pendingAt_le_one _ (by decide) _⟩

/-- C1 counterexample: one scheduleAISymptomMonitoring call (the patterns
all have four intervals, e.g. CRITICAL = [30, 60, 120, 240]) leaves four
non-cancelled pending jobs under the single identity (patient, aiSymptom),
so the claimed at-most-one bound fails on that operation. -/
theorem aiStart_four_pending_jobs :
    pendingAt (applyOps [] [Op.aiStart "p1" 0 4]) ("p1", Track.aiSymptom) = 4 ∧
    ¬ pendingAt (applyOps [] [Op.aiStart "p1" 0 4]) ("p1", Track.aiSymptom) ≤ 1 := by
  decide

/-- C2: the escalation policy of scheduleHealthCheckup is total over level
names: emergency maps to a 1-minute interval, critical to 2, high to 5,
medium to 15, low to 60, and any level outside the table falls back to the
medium interval of 15 minutes; the lookup never errors. -/
theorem scheduleInterval_table :
    (∀ riskLevel : String,
      riskLevel ∉ ["critical", "high", "medium", "low", "emergency"] →
      scheduleInterval riskLevel = 15) ∧
    scheduleInterval "emergency" = 1 ∧ scheduleInterval "critical" = 2 ∧
    scheduleInterval "high" = 5 ∧ scheduleInterval "medium" = 15 ∧
    scheduleInterval "low" = 60 := by
  refine ⟨?_, rfl, rfl, rfl, rfl, rfl⟩
  intro r hr
  simp only [List.mem_cons, List.not_mem_nil, or_false, not_or] at hr
  obtain ⟨h1, h2, h3, h4, h5⟩ := hr
  simp [scheduleInterval, monitoringIntervals, h1, h2, h3, h4, h5]

/-- Witness for C2 at the out-of-table level name "urgent". -/
theorem scheduleInterval_table_witness :
    ("urgent" ∉ (["critical", "high", "medium", "low", "emergency"] : List String)) ∧
    scheduleInterval "urgent" = 15 :=
  ⟨by decide, scheduleInterval_table.1 "urgent" (by decide)⟩

/-- C3: detectPollResponse lowercases and trims its input, maps a bare
digit 1-5 positionally onto the five responses, maps each exact canonical
token to itself, recognises only the curated short phrasings, and returns
no classification for any other text; in particular "3" is same_symptoms,
"  WORSE  " is worse_condition, and a free-form sentence that merely
contains the word "worse" is unclassified. -/
theorem detectPollResponse_spec :
    (∀ s : String, normalizeText s ∉ pollPhrases → detectPollResponse s = none) ∧
    detectPollResponse "1" = some .much_better ∧
    detectPollResponse "2" = some .slightly_better ∧
    detectPollResponse "3" = some .same_symptoms ∧
    detectPollResponse "4" = some .worse_condition ∧
    detectPollResponse "5" = some .emergency_help ∧
    detectPollResponse "much_better" = some .much_better ∧
    detectPollResponse "slightly_better" = some .slightly_better ∧
    detectPollResponse "same_symptoms" = some .same_symptoms ∧
    detectPollResponse "worse_condition" = some .worse_condition ∧
    detectPollResponse "emergency_help" = some .emergency_help ∧
    detectPollResponse "  WORSE  " = some .worse_condition ∧
    detectPollResponse "I feel worse than my headache yesterday, it really hurts" = none := by
  constructor
  · intro s hs
    simp only [pollPhrases, List.mem_cons, List.not_mem_nil, or_false, not_or] at hs
    obtain ⟨h1, h2, h3, h4, h5, h6, h7, h8, h9, h10, h11, h12, h13, h14,
      h15, h16, h17, h18, h19, h20, h21, h22, h23, h24, h25, h26, h27, h28⟩ := hs
    unfold detectPollResponse
    simp [h1, h2, h3, h4, h5, h6, h7, h8, h9, h10, h11, h12, h13, h14,
      h15, h16, h17, h18, h19, h20, h21, h22, h23, h24, h25, h26, h27, h28]
  · decide

/-- Witness for C3 at a text outside the accepted phrase list. -/
theorem detectPollResponse_spec_witness :
    (normalizeText "how is the weather today" ∉ pollPhrases) ∧
    detectPollResponse "how is the weather today" = none :=
  ⟨by decide, detectPollResponse_spec.1 "how is the weather today" (by decide)⟩

/-! ## handlePollResponse: monitoring actions on poll replies -/

/-- The fields of the MedGemma analysis that handlePollResponse consults. -/
structure AIAnalysis where
  recEmergency : Bool
  emergencyAlert : Bool
  recEscalate : Bool
  escalationLevel : Option String
  riskLevel : Option String
  deriving DecidableEq, Repr

/-- aiAnalysis?.recommendations?.emergency || aiAnalysis?.emergencyAlert. -/
def aiEmergencyFlag : Option AIAnalysis → Bool
  | some a => a.recEmergency || a.emergencyAlert
  | none => false

/-- aiAnalysis?.recommendations?.escalate. -/
def aiEscalateFlag : Option AIAnalysis → Bool
  | some a => a.recEscalate
  | none => false

/-- The escalation level the escalate branch passes on:
aiAnalysis?.escalationLevel || (aiAnalysis?.risk?.level === "high"
? "urgent" : "urgent") — both arms of the ternary are the literal
"urgent". -/
def escalationLevelFor (ai : Option AIAnalysis) : String :=
  match ai.bind (·.escalationLevel) with
  | some lvl => lvl
  | none => if ai.bind (·.riskLevel) = some "high" then "urgent" else "urgent"

/-- The monitoringAction switch of handlePollResponse, in source order. -/
def monitoringActionFor (ai : Option AIAnalysis) (pollResponse : String) : String :=
  if aiEmergencyFlag ai then "emergency"
  else if aiEscalateFlag ai || pollResponse = "worse_condition" then "escalate"
  else if pollResponse = "much_better" then "reduce"
  else if pollResponse = "emergency_help" then "emergency"
  else "continue"

/-- Observable side effects of the poll-handling path. twilioSend is a
direct twilio.messages.create, dbLog a prisma write, queueMessage a
whatsappQueue.add of a send-whatsapp job with the given delay in minutes,
cancelCron a cancelHealthCheckups call, enqueueCron a healthCronQueue.add. -/
inductive Effect where
  | twilioSend
  | dbLog
  | queueMessage (delayMinutes : Nat)
  | cancelCron (p tag : String)
  | enqueueCron (id : JobId)
  deriving DecidableEq, Repr

/-- Effect trace of scheduleHealthCheckup: cancel the tag, add the job. -/
def scheduleHealthCheckupEffects (p tag : String) : List Effect :=
  [.cancelCron p tag, .enqueueCron (.recurringMonitor p tag)]

/-- Effect trace of updateMonitoringFrequency: cancel, then restart via
scheduleHealthCheckup only when the tag is "symptom". -/
def updateMonitoringFrequencyEffects (p tag : String) : List Effect :=
  .cancelCron p tag ::
    (if tag = "symptom" then scheduleHealthCheckupEffects p tag else [])

/-- What each monitoringAction branch of handlePollResponse does: reduce
cancels symptom monitoring; escalate calls updateMonitoringFrequency with
the computed level on tag "symptom"; emergency cancels symptom monitoring
and queues the 5-minute-delayed emergency follow-up message; continue does
nothing. -/
def monitoringActionEffects (p : String) (ai : Option AIAnalysis)
    (pollResponse : String) : List Effect :=
  match monitoringActionFor ai pollResponse with
  | "reduce" => [.cancelCron p "symptom"]
  | "escalate" => updateMonitoringFrequencyEffects p "symptom"
  | "emergency" => [.cancelCron p "symptom", .queueMessage 5]
  | _ => []

/-- The job data scheduleHealthCheckup enqueues (queue.js): the interval
comes from the table and checkNumber is the literal 1. -/
structure MonitorJobData where
  phone : String
  symptom : String
  riskLevel : String
  intervalMinutes : Nat
  checkNumber : Nat
  tag : String
  deriving DecidableEq, Repr

def scheduleHealthCheckupData (p symptom riskLevel tag : String) : MonitorJobData :=
  { phone := p, symptom := symptom, riskLevel := riskLevel,
    intervalMinutes := scheduleInterval riskLevel, checkNumber := 1, tag := tag }

/-- The replacement job enqueued by updateMonitoringFrequency(phone,
newRiskLevel, "symptom"), which calls
scheduleHealthCheckup(phone, "updated", newRiskLevel, "symptom"). -/
def updateMonitoringFrequencyData (p newRiskLevel : String) : MonitorJobData :=
  scheduleHealthCheckupData p "updated" newRiskLevel "symptom"

/-- The job the escalate branch of handlePollResponse ends up enqueueing. -/
def escalateReplacementJob (p : String) (ai : Option AIAnalysis) : MonitorJobData :=
  updateMonitoringFrequencyData p (escalationLevelFor ai)

/-- The five accepted pollResponse values in handlePollResponse. -/
def validResponses : List String :=
  ["much_better", "slightly_better", "same_symptoms", "worse_condition",
   "emergency_help"]

/-- Outcome of one handlePollResponse call as seen by its caller: either a
normal return with the list of performed effects, or a thrown error. -/
inductive HandlerOutcome where
  | ok (effects : List Effect)
  | thrown
  deriving DecidableEq, Repr

/-- messageText.toLowerCase().includes("911"). -/
def leadsChars : List Char → List Char → Bool
  | [], _ => true
  | _ :: _, [] => false
  | a :: as, b :: bs => a = b && leadsChars as bs

def containsChars (needle : List Char) : List Char → Bool
  | [] => leadsChars needle []
  | c :: rest => leadsChars needle (c :: rest) || containsChars needle rest

def contains911 (m : String) : Bool :=
  containsChars "911".data (m.data.map asciiLower)

/-- Embedding of handlePollResponse.  Parameters are the function's own:
the pollResponse and originalMessage it receives, and the outcome of the
MedGemma analysis (attempted only when originalMessage is present; none
when it failed or produced no usable message).  An input outside
validResponses sends the didn't-understand message and returns.  With no
usable analysis the guard rail proceeds only on an emergency verdict —
pollResponse = emergency_help, or (short-circuit) an originalMessage whose
lowercased text contains "911"; a missing originalMessage makes that test
itself throw, and a non-emergency without analysis throws the
MedGemma-required error.  On the proceed path the final message is queued,
the monitoring action runs, and the poll response is logged. -/
def handlePollResponseRun (p : String) (ai : Option AIAnalysis)
    (pollResponse : String) (originalMessage : Option String) : HandlerOutcome :=
  if pollResponse ∉ validResponses then .ok [.queueMessage 0]
  else
    match ai with
    | some _ =>
        .ok (.queueMessage 0 :: monitoringActionEffects p ai pollResponse ++ [.dbLog])
    | none =>
        if pollResponse = "emergency_help" then
          .ok (.queueMessage 0 :: monitoringActionEffects p ai pollResponse ++ [.dbLog])
        else
          match originalMessage with
          | none => .thrown
          | some m =>
              if contains911 m then
                .ok (.queueMessage 0 :: monitoringActionEffects p ai pollResponse ++ [.dbLog])
              else .thrown

/-- The webhook poll path (messageText is Body.toLowerCase()): the handler
is invoked only when detectPollResponse returns a classification, and the
call site passes three arguments to the four-parameter function
(phoneNumber, userExists = false, pollResponse, originalMessage), so the
detected classification lands in userExists, the raw messageText becomes
the pollResponse argument, and originalMessage is undefined — which also
means the analysis block is skipped (ai = none). -/
def webhookPollStep (p messageText : String) : Option HandlerOutcome :=
  match detectPollResponse messageText with
  | some _ => some (handlePollResponseRun p none messageText none)
  | none => none

/-- The send-whatsapp worker: a twilio send and a db log; it adds nothing
to any queue, so a queued message job fires once with no successor. -/
def whatsappSendEffects : List Effect := [.twilioSend, .dbLog]

/-- C4 (code bug): a worse_condition reply on an active high (5-minute)
symptom chain does reach the escalate branch, which cancels the pending
job and enqueues exactly one replacement — but the escalation level it
uses is the literal "urgent" (both arms of the ternary on risk.level are
"urgent"), a key absent from the monitoring interval table, so the
replacement runs at the medium default of 15 minutes instead of the
next-higher critical level's 2 minutes; the "escalated" chain is slower
than the high chain it replaces.  Moreover, through the actual webhook
call site the three arguments shift into the four-parameter handler, so a
"worse" reply is treated as invalid and cancels nothing at all. -/
theorem worse_reply_escalates_to_medium_default :
    monitoringActionFor (some ⟨false, false, false, none, some "high"⟩)
      "worse_condition" = "escalate" ∧
    escalationLevelFor (some ⟨false, false, false, none, some "high"⟩) = "urgent" ∧
    monitoringIntervals "urgent" = none ∧
    monitoringActionEffects "p1" (some ⟨false, false, false, none, some "high"⟩)
      "worse_condition"
      = [.cancelCron "p1" "symptom", .cancelCron "p1" "symptom",
         .enqueueCron (.recurringMonitor "p1" "symptom")] ∧
    (escalateReplacementJob "p1"
      (some ⟨false, false, false, none, some "high"⟩)).intervalMinutes = 15 ∧
    scheduleInterval "high" = 5 ∧ scheduleInterval "critical" = 2 ∧
    ¬ (escalateReplacementJob "p1"
        (some ⟨false, false, false, none, some "high"⟩)).intervalMinutes
      = scheduleInterval "critical" ∧
    webhookPollStep "p1" "worse" = some (.ok [.queueMessage 0]) := by
  decide

/-- C7 counterexample: a raw reply that merely contains "911" is not
classified as a poll response, so the poll path performs no monitoring
action at all — no Symptom cancellation and no 5-minute safety follow-up
is scheduled for it. -/
theorem text911_no_emergency_action :
    contains911 "i already called 911 please hurry" = true ∧
    webhookPollStep "p1" "i already called 911 please hurry" = none := by
  decide

/-- C7 (amended): whenever handlePollResponse reaches the emergency
verdict (an AI emergency flag, or the reply arriving as emergency_help),
its monitoring action is exactly: cancel the Symptom track's pending job
and queue one single 5-minute-delayed one-shot safety follow-up message;
no monitoring-chain job is enqueued by that action, and the whatsapp
worker serving the queued message enqueues no successor of its own.  Raw
text containing "911" is, however, not an independent trigger (see the
counterexample). -/
theorem emergency_action_effects (p : String) (ai : Option AIAnalysis)
    (pollResponse : String)
    (h : monitoringActionFor ai pollResponse = "emergency") :
    monitoringActionEffects p ai pollResponse
      = [.cancelCron p "symptom", .queueMessage 5] ∧
    (monitoringActionEffects p ai pollResponse).count (Effect.queueMessage 5) = 1 ∧
    (∀ id, Effect.enqueueCron id ∉ monitoringActionEffects p ai pollResponse) ∧
    (∀ id, Effect.enqueueCron id ∉ whatsappSendEffects) := by
  have he : monitoringActionEffects p ai pollResponse
      = [.cancelCron p "symptom", .queueMessage 5] := by
    unfold monitoringActionEffects
    rw [h]
    rfl
  refine ⟨he, ?_, ?_, ?_⟩
  · rw [he]; simp
  · intro id; rw [he]; simp
  · intro id; simp [whatsappSendEffects]

/-- Witness for C7 at the concrete emergency_help reply. -/
theorem emergency_action_effects_witness :
    monitoringActionFor none "emergency_help" = "emergency" ∧
    monitoringActionEffects "p1" none "emergency_help"
      = [Effect.cancelCron "p1" "symptom", Effect.queueMessage 5] :=
  ⟨by decide, (emergency_action_effects "p1" none "emergency_help" (by decide)).1⟩

/-! ## Bounded AI monitoring chains (totalChecks = 4) -/

/-- Job data of one pre-scheduled AI symptom check. -/
structure AIJob where
  checkNumber : Nat
  totalChecks : Nat
  deriving DecidableEq, Repr

/-- scheduleAISymptomMonitoring enqueues, in one batch, one job per
interval of the suggested pattern: job i carries checkNumber i+1 and
totalChecks = intervals.length. -/
def aiStartJobs (intervals : List Nat) : List AIJob :=
  (List.range intervals.length).map
    (fun i => { checkNumber := i + 1, totalChecks := intervals.length })

/-- The fire handler of an AI symptom check sends the check-in message and
logs it; it adds no job to any queue (true of processAISymptomCheck, and
equally of the legacy fallback the worker name-dispatch actually routes
the ai_symptom_monitoring job name to). -/
def aiFireEnqueues (_ : AIJob) : List AIJob := []

/-- State of one patient's AI monitoring chain: the pending pre-scheduled
checks and the number of fires so far. -/
structure AIState where
  pending : List AIJob
  fired : Nat
  deriving DecidableEq, Repr

/-- One fire: a due pending job leaves the queue, its handler runs and
contributes its (empty) enqueues. -/
inductive AIStep : AIState → AIState → Prop where
  | fire (s : AIState) (j : AIJob) (hj : j ∈ s.pending) :
      AIStep s ⟨s.pending.erase j ++ aiFireEnqueues j, s.fired + 1⟩

/-- Any number of fires in sequence. -/
inductive AIReach : AIState → AIState → Prop where
  | refl (s : AIState) : AIReach s s
  | tail {s t u : AIState} : AIReach s t → AIStep t u → AIReach s u

/-- The CRITICAL pattern of AI_MONITORING_PATTERNS: four check intervals. -/
def criticalIntervals : List Nat := [30, 60, 120, 240]

/-- The chain state right after scheduleAISymptomMonitoring with the
CRITICAL pattern (totalChecks = 4). -/
def aiInitialState : AIState := ⟨aiStartJobs criticalIntervals, 0⟩

lemma aiStep_preserves {s t : AIState} (hstep : AIStep s t)
    (h : s.fired + s.pending.length = 4 ∧
      ∀ j ∈ s.pending, j.checkNumber ≤ 4 ∧ j.totalChecks = 4) :
    t.fired + t.pending.length = 4 ∧
      ∀ j ∈ t.pending, j.checkNumber ≤ 4 ∧ j.totalChecks = 4 := by
  cases hstep with
  | fire j hj =>
    constructor
    · have hlen : (s.pending.erase j).length = s.pending.length - 1 :=
        List.length_erase_of_mem hj
      have hpos : 0 < s.pending.length := List.length_pos_of_mem hj
      have h1 := h.1
      simp only [aiFireEnqueues, List.append_nil]
      omega
    · intro k hk
      simp only [aiFireEnqueues, List.append_nil] at hk
      exact h.2 k (List.mem_of_mem_erase hk)

/-- C5: a monitoring chain started with totalChecks = 4 (the batch of four
pre-scheduled AI symptom checks) fires exactly 4 times and terminates: in
every reachable state at most 4 fires have happened, fires plus remaining
pending checks total exactly 4, no job numbered beyond 4 ever exists, and
the chain can run to completion with exactly 4 fires and nothing pending —
no 5th job is ever enqueued because the fire handler enqueues nothing. -/
theorem aiChain_fires_exactly_four :
    (∀ s : AIState, AIReach aiInitialState s →
      s.fired ≤ 4 ∧ s.fired + s.pending.length = 4 ∧
      ∀ j ∈ s.pending, j.checkNumber ≤ 4 ∧ j.totalChecks = 4) ∧
    (∃ s : AIState, AIReach aiInitialState s ∧ s.fired = 4 ∧ s.pending = []) := by
  constructor
  · intro s hreach
    have key : s.fired + s.pending.length = 4 ∧
        ∀ j ∈ s.pending, j.checkNumber ≤ 4 ∧ j.totalChecks = 4 := by
      induction hreach with
      | refl => exact ⟨by decide, by decide⟩
      | tail _ hstep ih => exact aiStep_preserves hstep ih
    exact ⟨by omega, key⟩
  · refine ⟨_, AIReach.tail (AIReach.tail (AIReach.tail (AIReach.tail
      (AIReach.refl aiInitialState)
      (AIStep.fire _ ⟨1, 4⟩ (by decide)))
      (AIStep.fire _ ⟨2, 4⟩ (by decide)))
      (AIStep.fire _ ⟨3, 4⟩ (by decide)))
      (AIStep.fire _ ⟨4, 4⟩ (by decide)), by decide, by decide⟩

/-- Witness for C5 at the initial chain state. -/
theorem aiChain_fires_exactly_four_witness :
    aiInitialState.fired ≤ 4 ∧
    aiInitialState.fired + aiInitialState.pending.length = 4 ∧
    ∀ j ∈ aiInitialState.pending, j.checkNumber ≤ 4 ∧ j.totalChecks = 4 :=
  aiChain_fires_exactly_four.1 aiInitialState (AIReach.refl aiInitialState)

/-! ## The recurring-monitor successor job -/

/-- processRecurringHealthMonitor enqueues its successor by calling
scheduleHealthCheckup(phoneNumber, symptom, riskLevel, tag) — the same
symptom, level and tag as the fired job. -/
def recurringSuccessor (j : MonitorJobData) : MonitorJobData :=
  scheduleHealthCheckupData j.phone j.symptom j.riskLevel j.tag

/-- The fired handler enqueues exactly this one successor job. -/
def recurringFireEnqueues (j : MonitorJobData) : List MonitorJobData :=
  [recurringSuccessor j]

/-- A concrete fired job: check number 3 of a high symptom chain. -/
def firedHighCheck3 : MonitorJobData :=
  { phone := "p1", symptom := "dizzy", riskLevel := "high",
    intervalMinutes := 5, checkNumber := 3, tag := "symptom" }

/-- C6 counterexample: firing check number 3 of a high symptom chain
enqueues a successor whose checkNumber is 1, not 3 + 1 —
scheduleHealthCheckup always writes checkNumber: 1. -/
theorem recurringSuccessor_counterexample :
    (recurringSuccessor firedHighCheck3).checkNumber = 1 ∧
    ¬ (recurringSuccessor firedHighCheck3).checkNumber
      = firedHighCheck3.checkNumber + 1 := by
  decide

/-- C6 (amended): when a recurring check-in job fires, the handler
enqueues exactly one successor with the same patient, track tag,
escalation level and symptom context, at that level's table interval —
but its sequence number is always reset to the literal 1, never the fired
job's number plus one. -/
theorem recurringSuccessor_spec (j : MonitorJobData) :
    recurringFireEnqueues j = [recurringSuccessor j] ∧
    (recurringSuccessor j).phone = j.phone ∧
    (recurringSuccessor j).tag = j.tag ∧
    (recurringSuccessor j).riskLevel = j.riskLevel ∧
    (recurringSuccessor j).symptom = j.symptom ∧
    (recurringSuccessor j).intervalMinutes = scheduleInterval j.riskLevel ∧
    (recurringSuccessor j).checkNumber = 1 :=
  ⟨rfl, rfl, rfl, rfl, rfl, rfl, rfl⟩

/-! ## The daily track: 09:00 anchor and native repeat -/

/-- Minutes per day; scheduleDailyCheckup computes in local wall-clock
time, modelled here as minutes since the local midnight of day 0. -/
def minutesPerDay : Nat := 1440

/-- Nine AM local, 09:00, as minutes after midnight (setHours(9, 0, 0, 0)). -/
def nineAM : Nat := 540

/-- scheduleDailyCheckup first-fire computation: next9AM starts as today
at 09:00; if now >= next9AM the date moves one day forward. -/
def dailyFirstFire (now : Nat) : Nat :=
  let today9 := (now / minutesPerDay) * minutesPerDay + nineAM
  if today9 ≤ now then today9 + minutesPerDay else today9

/-- The add options of the daily-health-checkup job: delay until the first
fire and the native repeat of every 24 hours. -/
structure DailyJobSpec where
  delay : Nat
  repeatEvery : Option Nat
  deriving DecidableEq, Repr

/-- delay = next9AM.getTime() - now.getTime();
repeat = every 24 * 60 * 60 * 1000 ms, i.e. 1440 minutes. -/
def scheduleDailyCheckupSpec (now : Nat) : DailyJobSpec :=
  { delay := dailyFirstFire now - now, repeatEvery := some minutesPerDay }

/-- processDailyRoutineCheckup: send the message and log it; the handler
adds no job to any queue. -/
def dailyCheckupFireEffects : List Effect := [.twilioSend, .dbLog]

/-- C8: the Daily track started at time t fires first at the next
occurrence of 09:00 local — the same day when 09:00 has not yet passed,
the next day otherwise — always strictly in the future and always at
09:00 on the clock; the job carries the JobStore's native 24-hour repeat,
and the Daily fire handler never enqueues a successor job itself. -/
theorem daily_anchor_nine_am (now : Nat) :
    (now % minutesPerDay < nineAM →
      dailyFirstFire now = (now / minutesPerDay) * minutesPerDay + nineAM) ∧
    (nineAM ≤ now % minutesPerDay →
      dailyFirstFire now = (now / minutesPerDay + 1) * minutesPerDay + nineAM) ∧
    now < dailyFirstFire now ∧
    dailyFirstFire now % minutesPerDay = nineAM ∧
    (scheduleDailyCheckupSpec now).repeatEvery = some minutesPerDay ∧
    (scheduleDailyCheckupSpec now).delay = dailyFirstFire now - now ∧
    (∀ id, Effect.enqueueCron id ∉ dailyCheckupFireEffects) ∧
    (∀ d, Effect.queueMessage d ∉ dailyCheckupFireEffects) := by
  have hd := Nat.div_add_mod now minutesPerDay
  refine ⟨?_, ?_, ?_, ?_, rfl, rfl, ?_, ?_⟩
  · intro h
    unfold dailyFirstFire
    rw [if_neg]
    simp only [minutesPerDay, nineAM] at *
    omega
  · intro h
    unfold dailyFirstFire
    rw [if_pos]
    · simp only [minutesPerDay, nineAM] at *
      omega
    · simp only [minutesPerDay, nineAM] at *
      omega
  · unfold dailyFirstFire
    simp only [minutesPerDay, nineAM] at hd ⊢
    split <;> omega
  · unfold dailyFirstFire
    simp only [minutesPerDay, nineAM] at hd ⊢
    split <;> omega
  · intro id
    simp [dailyCheckupFireEffects]
  · intro d
    simp [dailyCheckupFireEffects]

/-- Witness for C8: started at 09:05 on day 0 (minute 545), the first fire
is 09:00 on day 1 (minute 1980). -/
theorem daily_anchor_nine_am_witness :
    nineAM ≤ 545 % minutesPerDay ∧
    dailyFirstFire 545 = (545 / minutesPerDay + 1) * minutesPerDay + nineAM :=
  ⟨by decide, (daily_anchor_nine_am 545).2.1 (by decide)⟩

/-! ## Dispatch before reschedule in the fire handlers -/

/-- processRecurringHealthMonitor in source order: send the check-in via
twilio, log it, then scheduleHealthCheckup for the successor (a cancel
followed by an add). -/
def recurringFireEffects (p tag : String) : List Effect :=
  [.twilioSend, .dbLog, .cancelCron p tag,
   .enqueueCron (.recurringMonitor p tag)]

/-- processWeatherAlertCheckin in source order: queue the check-in message
on the whatsapp queue, then re-add the weather-alert job while the alert
urgency is still emergency or high. -/
def weatherFireEffects (p urgency : String) : List Effect :=
  .queueMessage 0 ::
    (if urgency = "emergency" ∨ urgency = "high"
     then [.enqueueCron (.weatherAlert p)] else [])

/-- Effects that hand the due notification to the dispatcher. -/
def isDispatch : Effect → Bool
  | .twilioSend => true
  | .queueMessage _ => true
  | _ => false

/-- Effects that enqueue a successor check-in job. -/
def isReschedule : Effect → Bool
  | .enqueueCron _ => true
  | _ => false

/-- When the i-th effect of a handler raises, exactly the effects before
position i have been performed. -/
def executedBefore (l : List Effect) (i : Nat) : List Effect := l.take i

/-- C9: in both self-rescheduling fire handlers every successor enqueue
occurs strictly after the dispatch of the due notification, so any
execution that fails at the reschedule step has already performed a
dispatch: a reschedule failure never prevents delivery of the current
message. -/
theorem dispatch_before_reschedule (p tag urgency : String) :
    (∀ i, ∀ hi : i < (recurringFireEffects p tag).length,
      isReschedule ((recurringFireEffects p tag).get ⟨i, hi⟩) = true →
      ∃ e ∈ executedBefore (recurringFireEffects p tag) i, isDispatch e = true) ∧
    (∀ i, ∀ hi : i < (weatherFireEffects p urgency).length,
      isReschedule ((weatherFireEffects p urgency).get ⟨i, hi⟩) = true →
      ∃ e ∈ executedBefore (weatherFireEffects p urgency) i, isDispatch e = true) := by
  constructor
  · intro i hi h
    match i with
    | 0 => simp [recurringFireEffects, isReschedule] at h
    | 1 => simp [recurringFireEffects, isReschedule] at h
    | 2 => simp [recurringFireEffects, isReschedule] at h
    | 3 =>
        refine ⟨.twilioSend, ?_, rfl⟩
        simp [recurringFireEffects, executedBefore]
    | n + 4 =>
        simp [recurringFireEffects] at hi
  · intro i hi h
    by_cases hu : urgency = "emergency" ∨ urgency = "high"
    · simp only [weatherFireEffects, if_pos hu] at hi h ⊢
      match i with
      | 0 => simp [isReschedule] at h
      | 1 =>
          refine ⟨.queueMessage 0, ?_, rfl⟩
          simp [executedBefore]
      | n + 2 => simp at hi
    · simp only [weatherFireEffects, if_neg hu] at hi h ⊢
      match i with
      | 0 => simp [isReschedule] at h
      | n + 1 => simp at hi

/-- Witness for C9: the successor enqueue of the recurring handler sits at
position 3, and the dispatched notification is in the executed prefix. -/
theorem dispatch_before_reschedule_witness :
    ∃ e ∈ executedBefore (recurringFireEffects "p1" "symptom") 3,
      isDispatch e = true :=
  (dispatch_before_reschedule "p1" "symptom" "high").1 3 (by decide) (by decide)

/-! ## Store failures: what propagates and what mutates -/

/-- A transient JobStore (Redis) failure raised by a BullMQ call. -/
inductive StoreErr where
  | transient
  deriving DecidableEq, Repr

/-- cancelHealthCheckups under a store failure: the entire body sits in
one try/catch whose handler only logs, so when the first store call (the
getJob/remove of the tag's job) throws, the function returns normally —
the store is unchanged and no error reaches the caller.  Without a
failure it performs the full cancellation and likewise reports nothing. -/
def cancelHealthCheckupsRun (storeFails : Bool) (p tag : String)
    (s : List JobId) : List JobId × Option StoreErr :=
  if storeFails then (s, none)
  else (cancelHealthCheckupsStore p tag s, none)

/-- scheduleHealthCheckup under a store failure at the enqueue: the
awaited cancel has already run (and itself never surfaces a failure);
then healthCronQueue.add throws and that error propagates to the caller —
with the previously pending job already removed. -/
def scheduleHealthCheckupRun (addFails : Bool) (p tag : String)
    (s : List JobId) : List JobId × Option StoreErr :=
  let s1 := (cancelHealthCheckupsRun false p tag s).1
  if addFails then (s1, some .transient)
  else (addJob (.recurringMonitor p tag) s1, none)

lemma mem_foldl_remove {α : Type} (f : α → JobId) :
    ∀ (l : List α) (s : List JobId) (id : JobId),
      id ∈ l.foldl (fun s a => removeJob (f a) s) s → id ∈ s
  | [], _, _, h => h
  | a :: l, s, id, h =>
      List.mem_of_mem_erase (mem_foldl_remove f l (removeJob (f a) s) id h)

lemma pendingAt_cancel_symptom_zero {s : List JobId} (p : String)
    (h : GoodStore s) :
    pendingAt (cancelHealthCheckupsStore p "symptom" s)
      (p, Track.tagged "symptom") = 0 := by
  unfold pendingAt
  apply List.length_eq_zero.mpr
  apply List.filter_eq_nil_iff.mpr
  intro id hid hident
  have hident2 : identOf id = (p, Track.tagged "symptom") :=
    of_decide_eq_true hident
  have hid2 : id ∈ removeJob (.recurringMonitor p "symptom") s := by
    have hs : cancelHealthCheckupsStore p "symptom" s
        = removeLegacy p "symptom"
            (removeJob (.recurringMonitor p "symptom") s) := rfl
    rw [hs] at hid
    exact mem_foldl_remove (fun i => JobId.legacyCheckup p "symptom" i)
      legacyIntervals _ id hid
  have hkeyed : keyedJob id = true :=
    h.2 id (List.mem_of_mem_erase hid2)
  have hob : id = JobId.recurringMonitor p "symptom" :=
    identOf_inj_keyed hkeyed rfl hident2
  have hne := ((List.Nodup.mem_erase_iff h.1).mp hid2).1
  exact hne hob

/-- C10 counterexample: with one symptom job pending, a store failure
inside cancelHealthCheckups is swallowed — the caller sees a normal
return, not a propagated error; and a store failure at the enqueue of
scheduleHealthCheckup propagates, but only after the cancel-before-add
already removed the prior job, so on error the pending set is empty
rather than exactly what it was before the call.  Both halves of the
claimed propagate-with-no-partial-mutation contract fail. -/
theorem store_failure_counterexample :
    (cancelHealthCheckupsRun true "p1" "symptom"
      [JobId.recurringMonitor "p1" "symptom"]).2 = none ∧
    (scheduleHealthCheckupRun true "p1" "symptom"
      [JobId.recurringMonitor "p1" "symptom"]).2 = some .transient ∧
    (scheduleHealthCheckupRun true "p1" "symptom"
      [JobId.recurringMonitor "p1" "symptom"]).1 = [] ∧
    ¬ (scheduleHealthCheckupRun true "p1" "symptom"
        [JobId.recurringMonitor "p1" "symptom"]).1
      = [JobId.recurringMonitor "p1" "symptom"] := by
  decide

/-- C10 (amended): when the JobStore fails, the operations are not
atomic-and-propagating as claimed; what actually holds on any
well-formed store is: a failed enqueue inside scheduleHealthCheckup
surfaces the error to the caller but leaves the identity with zero
pending jobs (the cancel already removed the prior one), and a failing
cancelHealthCheckups swallows the error entirely, returning normally
with the store as of the failure point. -/
theorem store_failure_semantics (p : String) (s : List JobId)
    (hgood : GoodStore s) :
    (scheduleHealthCheckupRun true p "symptom" s).2 = some .transient ∧
    pendingAt (scheduleHealthCheckupRun true p "symptom" s).1
      (p, Track.tagged "symptom") = 0 ∧
    (cancelHealthCheckupsRun true p "symptom" s).2 = none ∧
    (cancelHealthCheckupsRun true p "symptom" s).1 = s :=
  ⟨rfl, pendingAt_cancel_symptom_zero p hgood, rfl, rfl⟩

/-- Witness for C10 at a store holding one symptom job. -/
theorem store_failure_semantics_witness :
    (scheduleHealthCheckupRun true "p2" "symptom"
      [JobId.recurringMonitor "p2" "symptom"]).2 = some StoreErr.transient ∧
    pendingAt (scheduleHealthCheckupRun true "p2" "symptom"
      [JobId.recurringMonitor "p2" "symptom"]).1
      ("p2", Track.tagged "symptom") = 0 ∧
    (cancelHealthCheckupsRun true "p2" "symptom"
      [JobId.recurringMonitor "p2" "symptom"]).2 = none ∧
    (cancelHealthCheckupsRun true "p2" "symptom"
      [JobId.recurringMonitor "p2" "symptom"]).1
      = [JobId.recurringMonitor "p2" "symptom"] :=
  store_failure_semantics "p2" [JobId.recurringMonitor "p2" "symptom"]
    ⟨by decide, by decide⟩

end CareCast
